import Mathlib

/-
Verification of the binding-mechanism simulation engine.

Shallow embedding conventions:
* Python floats are modelled as rationals; float NaN is modelled as the
  value none of Option Rat where a value may be NaN.
* Python exceptions (KeyError, IndexError, ZeroDivisionError, max of an
  empty sequence) are modelled as the value none of an Option result type.
* Python round uses round-half-to-even; int truncates toward zero; list
  indexing admits negative indices that wrap from the end; slices clamp
  their bounds.  These are embedded by pyRound, pyInt, pyGetQ, pySlice.
-/

/-- Python round: round half to even (bankers rounding). -/
def pyRound (q : ℚ) : ℤ :=
  let f := ⌊q⌋
  let r := q - (f : ℚ)
  if r < 1/2 then f
  else if 1/2 < r then f + 1
  else if f % 2 = 0 then f else f + 1

/-- Python int() on a float: truncation toward zero. -/
def pyInt (q : ℚ) : ℤ :=
  if q < 0 then -⌊-q⌋ else ⌊q⌋

/-- Python list indexing xs[k]: negative k wraps from the end, out of
range raises (modelled as none). -/
def pyGetQ (xs : List ℚ) (k : ℤ) : Option ℚ :=
  let n : ℤ := xs.length
  let i := if k < 0 then k + n else k
  if 0 ≤ i ∧ i < n then some (xs.getD i.toNat 0) else none

/-- Python slice xs[a:]: clamps the start index. -/
def pySliceFrom (xs : List ℚ) (a : ℤ) : List ℚ :=
  if 0 ≤ a then xs.drop a.toNat
  else xs.drop (max ((xs.length : ℤ) + a) 0).toNat

/-- Clamp a Python slice bound to [0, n]. -/
def pyIdxClamp (n : ℕ) (k : ℤ) : ℕ :=
  (if k < 0 then max (k + n) 0 else min k n).toNat

/-- Python slice xs[a:b]. -/
def pySlice (xs : List ℚ) (a b : ℤ) : List ℚ :=
  (xs.take (pyIdxClamp xs.length b)).drop (pyIdxClamp xs.length a)

/-- Python max() over a list (0 for the empty list, where Python raises;
callers guard emptiness separately). -/
def maxQ : List ℚ → ℚ
  | [] => 0
  | x :: xs => xs.foldl max x

/-- Python min() over a list (0 for the empty list). -/
def minQ : List ℚ → ℚ
  | [] => 0
  | x :: xs => xs.foldl min x

/-- Index of the first minimal element, as numpy argmin. -/
def argminIdx : List ℚ → ℕ
  | [] => 0
  | [_] => 0
  | x :: y :: ys =>
      let j := argminIdx (y :: ys)
      if x ≤ (y :: ys).getD j 0 then 0 else j + 1

/-- First index whose element satisfies the predicate. -/
def findFirstIdx (p : ℚ → Bool) : List ℚ → Option ℕ
  | [] => none
  | x :: xs => if p x then some 0 else (findFirstIdx p xs).map (· + 1)

/-- Run f on 0, 1, ..., n-1 in order, failing if any call fails
(a Python for-loop whose body may raise). -/
def optMapRange (f : ℕ → Option α) : ℕ → Option (List α)
  | 0 => some []
  | k + 1 =>
      match optMapRange f k, f k with
      | some acc, some a => some (acc ++ [a])
      | _, _ => none

theorem le_foldl_max (a : ℚ) (l : List ℚ) : a ≤ l.foldl max a := by
  induction l generalizing a with
  | nil => exact le_refl a
  | cons x xs ih => exact le_trans (le_max_left a x) (ih (max a x))

theorem foldl_max_le_of_mem (a : ℚ) (l : List ℚ) :
    ∀ x ∈ l, x ≤ l.foldl max a := by
  induction l generalizing a with
  | nil => intro x hx; cases hx
  | cons y ys ih =>
    intro x hx
    cases hx with
    | head => exact le_trans (le_max_right a _) (le_foldl_max _ _)
    | tail _ h => exact ih (max a y) x h

theorem foldl_max_mem (a : ℚ) (l : List ℚ) :
    l.foldl max a = a ∨ l.foldl max a ∈ l := by
  induction l generalizing a with
  | nil => left; rfl
  | cons y ys ih =>
    rcases ih (max a y) with h | h
    · rcases max_choice a y with hm | hm
      · left; simpa [List.foldl_cons, hm] using h
      · right
        rw [List.foldl_cons, h, hm]
        exact List.mem_cons_self _ _
    · right; exact List.mem_cons_of_mem _ h

theorem maxQ_mem (l : List ℚ) (h : l ≠ []) : maxQ l ∈ l := by
  cases l with
  | nil => exact absurd rfl h
  | cons x xs =>
    rcases foldl_max_mem x xs with h1 | h1
    · simp [maxQ, h1]
    · simp only [maxQ]; exact List.mem_cons_of_mem _ h1

theorem le_maxQ (l : List ℚ) : ∀ x ∈ l, x ≤ maxQ l := by
  intro x hx
  cases l with
  | nil => cases hx
  | cons y ys =>
    cases hx with
    | head => exact le_foldl_max _ _
    | tail _ h => exact foldl_max_le_of_mem y ys x h

theorem argminIdx_lt (l : List ℚ) (h : l ≠ []) : argminIdx l < l.length := by
  induction l with
  | nil => exact absurd rfl h
  | cons x xs ih =>
    cases xs with
    | nil => simp [argminIdx]
    | cons y ys =>
      simp only [argminIdx]
      split
      · simp
      · have := ih (by simp)
        simpa using Nat.succ_lt_succ this

theorem argminIdx_min (l : List ℚ) :
    ∀ j < l.length, l.getD (argminIdx l) 0 ≤ l.getD j 0 := by
  induction l with
  | nil => intro j hj; cases hj
  | cons x xs ih =>
    cases xs with
    | nil =>
      intro j hj
      have hj0 : j = 0 := by simpa using Nat.lt_one_iff.mp (by simpa using hj)
      subst hj0
      simp [argminIdx]
    | cons y ys =>
      intro j hj
      simp only [argminIdx]
      by_cases hle : x ≤ (y :: ys).getD (argminIdx (y :: ys)) 0
      · rw [if_pos hle]
        cases j with
        | zero => simp
        | succ k =>
          simp only [List.getD_cons_zero, List.getD_cons_succ]
          exact le_trans hle (ih k (by simpa using Nat.lt_of_succ_lt_succ hj))
      · rw [if_neg hle]
        cases j with
        | zero =>
          simp only [List.getD_cons_zero, List.getD_cons_succ]
          exact le_of_lt (lt_of_not_le hle)
        | succ k =>
          simp only [List.getD_cons_succ]
          exact ih k (by simpa using Nat.lt_of_succ_lt_succ hj)

theorem argminIdx_first (l : List ℚ) :
    ∀ j < argminIdx l, l.getD (argminIdx l) 0 < l.getD j 0 := by
  induction l with
  | nil => intro j hj; simp [argminIdx] at hj
  | cons x xs ih =>
    cases xs with
    | nil => intro j hj; simp [argminIdx] at hj
    | cons y ys =>
      intro j hj
      simp only [argminIdx] at hj ⊢
      by_cases hle : x ≤ (y :: ys).getD (argminIdx (y :: ys)) 0
      · rw [if_pos hle] at hj; cases hj
      · rw [if_neg hle] at hj ⊢
        cases j with
        | zero =>
          simp only [List.getD_cons_zero, List.getD_cons_succ]
          exact lt_of_not_le hle
        | succ k =>
          simp only [List.getD_cons_succ]
          exact ih k (Nat.lt_of_succ_lt_succ hj)

theorem findFirstIdx_eq_none_iff (p : ℚ → Bool) (l : List ℚ) :
    findFirstIdx p l = none ↔ ∀ x ∈ l, p x = false := by
  induction l with
  | nil => simp [findFirstIdx]
  | cons x xs ih =>
    by_cases h : p x
    · simp [findFirstIdx, h]
    · rw [findFirstIdx, if_neg h, Option.map_eq_none', ih]
      constructor
      · intro ha z hz
        rcases List.mem_cons.mp hz with hz | hz
        · subst hz; exact eq_false_of_ne_true h
        · exact ha z hz
      · intro ha z hz
        exact ha z (List.mem_cons_of_mem _ hz)

theorem findFirstIdx_eq_some (p : ℚ → Bool) (l : List ℚ) (n : ℕ) :
    findFirstIdx p l = some n →
      n < l.length ∧ p (l.getD n 0) = true ∧ ∀ k < n, p (l.getD k 0) = false := by
  induction l generalizing n with
  | nil => intro h; cases h
  | cons x xs ih =>
    intro h
    by_cases hx : p x
    · simp only [findFirstIdx, if_pos hx] at h
      cases h
      exact ⟨Nat.succ_pos _, by simpa using hx, fun k hk => absurd hk (Nat.not_lt_zero k)⟩
    · rw [findFirstIdx, if_neg hx, Option.map_eq_some'] at h
      obtain ⟨m, hm, rfl⟩ := h
      obtain ⟨h1, h2, h3⟩ := ih m hm
      refine ⟨by simpa using Nat.succ_lt_succ h1, by simpa using h2, ?_⟩
      intro k hk
      cases k with
      | zero => simpa using eq_false_of_ne_true hx
      | succ j =>
        simp only [List.getD_cons_succ]
        exact h3 j (Nat.lt_of_succ_lt_succ hk)

theorem optMapRange_length {α : Type} (f : ℕ → Option α) (n : ℕ) (ys : List α) :
    optMapRange f n = some ys → ys.length = n := by
  induction n generalizing ys with
  | zero => intro h; cases h; rfl
  | succ k ih =>
    intro h
    cases hk : optMapRange f k with
    | none => rw [optMapRange, hk] at h; cases h
    | some acc =>
      cases hf : f k with
      | none => rw [optMapRange, hk, hf] at h; cases h
      | some a =>
        rw [optMapRange, hk, hf] at h
        cases h
        simp [ih acc hk]

theorem optMapRange_get {α : Type} (f : ℕ → Option α) (n : ℕ) (ys : List α) (d : α) :
    optMapRange f n = some ys → ∀ i < n, f i = some (ys.getD i d) := by
  induction n generalizing ys with
  | zero => intro _ i hi; cases hi
  | succ k ih =>
    intro h i hi
    cases hk : optMapRange f k with
    | none => rw [optMapRange, hk] at h; cases h
    | some acc =>
      cases hf : f k with
      | none => rw [optMapRange, hk, hf] at h; cases h
      | some a =>
        rw [optMapRange, hk, hf] at h
        cases h
        have hlen : acc.length = k := optMapRange_length f k acc hk
        rcases Nat.lt_or_ge i k with hik | hik
        · rw [List.getD_append _ _ _ _ (by omega)]
          exact ih acc hk i hik
        · have hik2 : i = acc.length := by omega
          subst hik2
          rw [List.getD_append_right _ _ _ _ (le_refl _), Nat.sub_self, hlen]
          simpa using hf

theorem pyGetQ_of_nonneg (xs : List ℚ) (k : ℤ) (hk : 0 ≤ k) (a : ℚ) :
    pyGetQ xs k = some a ↔ k < (xs.length : ℤ) ∧ a = xs.getD k.toNat 0 := by
  simp only [pyGetQ]
  rw [if_neg (not_lt.mpr hk)]
  by_cases h : k < (xs.length : ℤ)
  · rw [if_pos ⟨hk, h⟩]
    simp [h, eq_comm]
  · rw [if_neg (fun hc => h hc.2)]
    simp [h]

/-
Parameter Library (lib_binding_kinetics.py).

The Python dictionaries are keyed by string drug names; the drug names that
occur as keys of BindingParameters.binding_parameters are embedded as the
constructors of DrugName.  All numeric literals are the exact rational
values of the source (scientific notation written out as fractions).
-/

inductive DrugName where
  | dofetilide
  | bepridil
  | terfenadine
  | cisapride
  | cisapride_kmax_verapamil
  | cisapride_kmax_bepridil
  | cisapride_EC50_ranolazine
  | cisapride_EC50_verapamil
  | cisapride_kmax_EC50_verapamil
  | verapamil
  | ranolazine
  | mexiletine
  | quinidine
  | sotalol
  | chlorpromazine
  | ondansetron
  | diltiazem
  | droperidol
  | pimozide
deriving DecidableEq

/-- One record of BindingParameters.binding_parameters (fields in source
order: Kmax, Ku, EC50, N, Vhalf, Cmax). -/
structure BindingParams where
  Kmax : ℚ
  Ku : ℚ
  EC50 : ℚ
  N : ℚ
  Vhalf : ℚ
  Cmax : ℚ
deriving DecidableEq

/-- BindingParameters.binding_parameters: per-drug hERG binding kinetics
(lib_binding_kinetics.py lines 28-181).  Every key of the Python dict is a
DrugName constructor, so the lookup is total. -/
def binding_parameters : DrugName → BindingParams
  | .dofetilide =>
      { Kmax := 100000000, Ku := 179/10000000, EC50 := 548300000,
        N := 9999/10000, Vhalf := -1147/1000, Cmax := 2 }
  | .bepridil =>
      { Kmax := 37350000, Ku := 1765/10000000, EC50 := 1000000000,
        N := 9365/10000, Vhalf := -5493/100, Cmax := 33 }
  | .terfenadine =>
      { Kmax := 9884, Ku := 818/10000000, EC50 := 41380,
        N := 65/100, Vhalf := -7749/100, Cmax := 4 }
  | .cisapride =>
      { Kmax := 9997/1000, Ku := 4161/10000000, EC50 := 4206/100,
        N := 9728/10000, Vhalf := -1995/10, Cmax := 26/10 }
  | .cisapride_kmax_verapamil =>
      { Kmax := 46460, Ku := 4161/10000000, EC50 := 4206/100,
        N := 9728/10000, Vhalf := -1995/10, Cmax := 26/10 }
  | .cisapride_kmax_bepridil =>
      { Kmax := 37350000, Ku := 4161/10000000, EC50 := 4206/100,
        N := 9728/10000, Vhalf := -1995/10, Cmax := 26/10 }
  | .cisapride_EC50_ranolazine =>
      { Kmax := 9997/1000, Ku := 4161/10000000, EC50 := 147200,
        N := 9728/10000, Vhalf := -1995/10, Cmax := 26/10 }
  | .cisapride_EC50_verapamil =>
      { Kmax := 9997/1000, Ku := 4161/10000000, EC50 := 9184000,
        N := 9728/10000, Vhalf := -1995/10, Cmax := 26/10 }
  | .cisapride_kmax_EC50_verapamil =>
      { Kmax := 46460, Ku := 4161/10000000, EC50 := 9184000,
        N := 9728/10000, Vhalf := -1995/10, Cmax := 26/10 }
  | .verapamil =>
      { Kmax := 46460, Ku := 7927/10000000, EC50 := 9184000,
        N := 1043/1000, Vhalf := -100, Cmax := 81 }
  | .ranolazine =>
      { Kmax := 5584/100, Ku := 1929/100000, EC50 := 147200,
        N := 95/100, Vhalf := -9487/100, Cmax := 19482/10 }
  | .mexiletine =>
      { Kmax := 9996/1000, Ku := 9967/100000, EC50 := 2308000,
        N := 1304/1000, Vhalf := -8626/100, Cmax := 4129 }
  | .quinidine =>
      { Kmax := 5770, Ku := 1/100, EC50 := 1000000,
        N := 8311/10000, Vhalf := -6487/100, Cmax := 3237 }
  | .sotalol =>
      { Kmax := 2403, Ku := 1985/100000, EC50 := 9619000,
        N := 7516/10000, Vhalf := -55, Cmax := 14690 }
  | .chlorpromazine =>
      { Kmax := 206000, Ku := 3866/100000, EC50 := 56770000,
        N := 8871/10000, Vhalf := -1457/100, Cmax := 38 }
  | .ondansetron =>
      { Kmax := 33540, Ku := 2325/100000, EC50 := 9950000,
        N := 8874/10000, Vhalf := -8211/100, Cmax := 139 }
  | .diltiazem =>
      { Kmax := 251, Ku := 2816/10000, EC50 := 1000000,
        N := 9485/10000, Vhalf := -9089/100, Cmax := 122 }
  | .droperidol =>
      { Kmax := 1421/100, Ku := 1256/1000000, EC50 := 1165/10,
        N := 578/1000, Vhalf := -7868/100, Cmax := 633/100 }
  | .pimozide =>
      { Kmax := 1007/100, Ku := 4576/100000000, EC50 := 5601/1000,
        N := 8714/10000, Vhalf := -7868/100, Cmax := 431/1000 }

/-- The drug_compounds list shared by BindingParameters and
DrugConcentrations (13 names, source order). -/
def drug_compounds : List DrugName :=
  [.dofetilide, .bepridil, .terfenadine, .cisapride, .verapamil,
   .ranolazine, .quinidine, .sotalol, .chlorpromazine, .ondansetron,
   .diltiazem, .mexiletine, .droperidol]

/-- One record of DrugConcentrations.drug_concentrations.  The fine grid
is the float array 10.0**np.linspace(fineLo, fineHi, 20); since its values
are transcendental powers, it is embedded symbolically by its two
exponent endpoints. -/
structure ConcGrid where
  coarse : List ℚ
  fineLo : ℚ
  fineHi : ℚ
  lit_default : List ℚ
deriving DecidableEq

/-- DrugConcentrations.drug_concentrations
(lib_binding_kinetics.py lines 495-559), as the association list of the
Python dict in source order. -/
def drug_concentrations : List (DrugName × ConcGrid) :=
  [(.dofetilide,
    { coarse := [0, 1/10, 1, 10, 30, 100, 300, 500, 1000],
      fineLo := -1, fineHi := 5/2, lit_default := [1, 3, 10, 30] }),
   (.verapamil,
    { coarse := [0, 1/10, 1, 30, 300, 1000, 10000, 100000],
      fineLo := -1, fineHi := 5, lit_default := [30, 100, 300, 1000] }),
   (.bepridil,
    { coarse := [0, 1/10, 1, 30, 100, 300, 1000, 10000],
      fineLo := -1, fineHi := 5, lit_default := [10, 30, 100, 300] }),
   (.terfenadine,
    { coarse := [0, 1/10, 1, 10, 30, 100, 300, 500, 1000, 10000],
      fineLo := -1, fineHi := 5, lit_default := [3, 10, 30, 100] }),
   (.cisapride,
    { coarse := [0, 1/10, 1, 10, 30, 100, 300, 500, 1000, 3000],
      fineLo := -1, fineHi := 3, lit_default := [1, 10, 100, 300] }),
   (.ranolazine,
    { coarse := [0, 1, 30, 300, 500, 1000, 10000, 100000, 1000000],
      fineLo := 1, fineHi := 11/2, lit_default := [1000, 10000, 30000, 100000] }),
   (.quinidine,
    { coarse := [0, 1, 30, 300, 500, 1000, 3000, 10000, 100000],
      fineLo := -1, fineHi := 5, lit_default := [100, 300, 1000, 10000] }),
   (.sotalol,
    { coarse := [0, 1, 30, 100, 300, 1000, 10000, 30000, 100000, 300000,
                 1000000, 10000000],
      fineLo := -1, fineHi := 7, lit_default := [10000, 30000, 100000, 300000] }),
   (.chlorpromazine,
    { coarse := [0, 1, 30, 300, 500, 1000, 3000, 10000, 100000],
      fineLo := -1, fineHi := 9/2, lit_default := [100, 300, 1000, 3000] }),
   (.ondansetron,
    { coarse := [0, 1, 30, 300, 500, 1000, 3000, 10000, 100000, 300000],
      fineLo := -1, fineHi := 11/2, lit_default := [300, 1000, 3000, 10000] }),
   (.diltiazem,
    { coarse := [0, 1, 30, 100, 300, 1000, 3000, 10000, 30000, 100000,
                 1000000, 10000000],
      fineLo := -1, fineHi := 6, lit_default := [3000, 10000, 30000, 100000] }),
   (.mexiletine,
    { coarse := [0, 1, 30, 100, 300, 1000, 10000, 30000, 100000, 1000000,
                 10000000],
      fineLo := -1, fineHi := 7, lit_default := [10000, 30000, 100000, 300000] })]

/-- Python dict lookup on the association list. -/
def lookupGrid (d : DrugName) : Option ConcGrid :=
  (drug_concentrations.find? (fun e => e.1 = d)).map (fun e => e.2)

/-- C10: droperidol is listed in DrugConcentrations.drug_compounds but is
not a key of DrugConcentrations.drug_concentrations, so looking up its
default concentration grid fails (Python KeyError, embedded as none),
while every other compound of the list has a grid entry. -/
theorem droperidol_missing_concentration_grid :
    DrugName.droperidol ∈ drug_compounds ∧
    lookupGrid .droperidol = none ∧
    (drug_compounds.all fun d =>
      decide (d = DrugName.droperidol) || (lookupGrid d).isSome) = true := by
  refine ⟨by decide, by decide, by decide⟩

/-
Signal Analysis (binding_kinetics.py, methods extract_peak, APD90,
APD90_update of class BindingKinetics).
-/

/-- One logged variable of a myokit SignalLog, as extract_peak sees it:
either an unfolded single series (keys_like finds zero pulse-indexed
keys), or a folded log with one series per pulse. -/
inductive LogVar where
  | unfolded (series : List ℚ)
  | folded (pulses : List (List ℚ))

/-- The peak_reduction computed at the end of extract_peak (lines
212-215): (peaks[0] - peaks[-1]) / peaks[0], or 0 when peaks[0] == 0. -/
def peakReduction (peaks : List ℚ) : ℚ :=
  if peaks.getD 0 0 = 0 then 0
  else (peaks.getD 0 0 - peaks.getLastD 0) / peaks.getD 0 0

/-- BindingKinetics.extract_peak (lines 202-217).  For a folded log, one
np.max per pulse series; for an unfolded log (zero pulses) the np.max of
the flat series.  np.max of an empty series raises: none. -/
def extract_peak : LogVar → Option (List ℚ × ℚ)
  | .unfolded s =>
      if s.isEmpty then none
      else some ([maxQ s], peakReduction [maxQ s])
  | .folded ps =>
      if ps.isEmpty then none
      else if ps.any (fun s => s.isEmpty) then none
      else some (ps.map maxQ, peakReduction (ps.map maxQ))

/-- C4: on a folded log whose pulse series are nonempty, extract_peak
returns the per-pulse maxima (each returned peak is a member of its pulse
series and an upper bound of it) and the reduction
(peaks[0] - peaks[-1]) / peaks[0], with reduction exactly 0 when
peaks[0] = 0.  The result is total (never a division error; over the
rational embedding no NaN exists). -/
theorem extract_peak_per_pulse_maxima (ps : List (List ℚ))
    (h1 : ps ≠ []) (h2 : ∀ s ∈ ps, s ≠ []) :
    ∀ r, extract_peak (.folded ps) = some r →
      r.1.length = ps.length ∧
      (∀ i, i < ps.length →
        r.1.getD i 0 ∈ ps.getD i [] ∧ ∀ x ∈ ps.getD i [], x ≤ r.1.getD i 0) ∧
      (r.1.getD 0 0 = 0 → r.2 = 0) ∧
      (r.1.getD 0 0 ≠ 0 →
        r.2 = (r.1.getD 0 0 - r.1.getLastD 0) / r.1.getD 0 0) := by
  intro r hr
  have hne : ps.isEmpty = false := by
    cases ps with
    | nil => exact absurd rfl h1
    | cons a l => rfl
  have hany : ps.any (fun s => s.isEmpty) = false := by
    rw [List.any_eq_false]
    intro s hs
    have := h2 s hs
    cases s with
    | nil => exact absurd rfl this
    | cons a l => simp
  rw [extract_peak, hne, hany] at hr
  simp only [Bool.false_eq_true, if_false] at hr
  cases hr
  refine ⟨List.length_map _ _, ?_, ?_, ?_⟩
  · intro i hi
    have hg : (ps.map maxQ).getD i 0 = maxQ (ps.getD i []) := by
      rw [List.getD_eq_getElem?_getD, List.getD_eq_getElem?_getD,
          List.getElem?_map]
      rw [List.getElem?_eq_getElem hi]
      simp
    have hmem : ps.getD i [] ∈ ps := by
      rw [List.getD_eq_getElem?_getD, List.getElem?_eq_getElem hi]
      exact List.getElem_mem _
    have hnil : ps.getD i [] ≠ [] := h2 _ hmem
    exact ⟨by rw [hg]; exact maxQ_mem _ hnil,
           fun x hx => by rw [hg]; exact le_maxQ _ x hx⟩
  · intro h0
    have h0x : (List.map maxQ ps).getD 0 0 = 0 := h0
    show peakReduction (List.map maxQ ps) = 0
    rw [peakReduction, if_pos h0x]
  · intro h0
    have h0x : ¬(List.map maxQ ps).getD 0 0 = 0 := h0
    show peakReduction (List.map maxQ ps) = _
    rw [peakReduction, if_neg h0x]

/-- C4 witness: a concrete folded two-pulse log with peaks 4 and 3 and
reduction (4 - 3)/4 = 1/4. -/
theorem extract_peak_per_pulse_maxima_witness :
    ([[(1 : ℚ), 4, 2], [3, 1]] ≠ ([] : List (List ℚ))) ∧
    (extract_peak (.folded [[(1 : ℚ), 4, 2], [3, 1]])
      = some ([(4 : ℚ), 3], 1/4)) ∧
    ((([(4 : ℚ), 3], (1 : ℚ)/4).1.length = 2) ∧
     (∀ i, i < 2 →
       ([(4 : ℚ), 3], (1 : ℚ)/4).1.getD i 0 ∈
           [[(1 : ℚ), 4, 2], [3, 1]].getD i [] ∧
       ∀ x ∈ [[(1 : ℚ), 4, 2], [3, 1]].getD i [],
         x ≤ ([(4 : ℚ), 3], (1 : ℚ)/4).1.getD i 0) ∧
     (([(4 : ℚ), 3], (1 : ℚ)/4).1.getD 0 0 = 0 →
       ([(4 : ℚ), 3], (1 : ℚ)/4).2 = 0) ∧
     (([(4 : ℚ), 3], (1 : ℚ)/4).1.getD 0 0 ≠ 0 →
       ([(4 : ℚ), 3], (1 : ℚ)/4).2 =
         (([(4 : ℚ), 3], (1 : ℚ)/4).1.getD 0 0 -
           ([(4 : ℚ), 3], (1 : ℚ)/4).1.getLastD 0) /
           ([(4 : ℚ), 3], (1 : ℚ)/4).1.getD 0 0)) :=
  ⟨by decide, by with_unfolding_all decide,
   extract_peak_per_pulse_maxima [[(1 : ℚ), 4, 2], [3, 1]] (by decide)
     (by decide) ([(4 : ℚ), 3], 1/4) (by with_unfolding_all decide)⟩

/-- C9: on an unfolded log (keys_like returns zero pulses) with a
nonempty series, extract_peak returns the one-element peak list holding
the global maximum, and a reduction of exactly 0, whatever the values. -/
theorem extract_peak_unfolded_zero_reduction (s : List ℚ) (hs : s ≠ []) :
    extract_peak (.unfolded s) = some ([maxQ s], 0) ∧
    maxQ s ∈ s ∧ ∀ x ∈ s, x ≤ maxQ s := by
  have hne : s.isEmpty = false := by
    cases s with
    | nil => exact absurd rfl hs
    | cons a l => rfl
  refine ⟨?_, maxQ_mem s hs, le_maxQ s⟩
  rw [extract_peak, hne]
  simp only [Bool.false_eq_true, if_false]
  have : peakReduction [maxQ s] = 0 := by
    by_cases h0 : maxQ s = 0
    · simp [peakReduction, h0]
    · simp [peakReduction, h0]
  rw [this]

/-- C9 witness: a concrete unfolded log with negative values. -/
theorem extract_peak_unfolded_zero_reduction_witness :
    (([(-3 : ℚ), -7] : List ℚ) ≠ []) ∧
    (extract_peak (.unfolded [(-3 : ℚ), -7]) = some ([maxQ [(-3 : ℚ), -7]], 0) ∧
     maxQ [(-3 : ℚ), -7] ∈ [(-3 : ℚ), -7] ∧
     ∀ x ∈ [(-3 : ℚ), -7], x ≤ maxQ [(-3 : ℚ), -7]) :=
  ⟨by decide, extract_peak_unfolded_zero_reduction [(-3 : ℚ), -7] (by decide)⟩

/-- BindingKinetics.APD90 (lines 219-227): the legacy fixed-offset APD90.
Threshold is min + 0.1 * (max - min); the index is the numpy argmin of
the absolute distances (first index of smallest distance); the duration
index * timestep - offset is replaced by the whole series length
len(signal) * timestep when it is below 1. -/
def APD90 (signal : List ℚ) (offset timestep : ℚ) : Option ℚ :=
  if signal.isEmpty then none
  else
    let APA := maxQ signal - minQ signal
    let APD90_v := minQ signal + (1/10) * APA
    let index := argminIdx (signal.map (fun x => |x - APD90_v|))
    let apd := (index : ℚ) * timestep - offset
    some (if apd < 1 then (signal.length : ℚ) * timestep else apd)

/-- C5: APD90 computes the threshold V = min + 0.1*(max - min), locates
the first sample whose value is closest to V (the located index i attains
the minimal absolute distance to V and every earlier index has strictly
larger distance), takes its time i * timestep minus the offset, and
returns the whole series length times the timestep whenever that duration
is below 1 time unit. -/
theorem APD90_first_closest_sample (signal : List ℚ) (offset timestep v : ℚ)
    (i : ℕ) (hs : signal ≠ [])
    (hv : v = minQ signal + (1/10) * (maxQ signal - minQ signal))
    (hi : i = argminIdx (signal.map (fun x => |x - v|))) :
    i < signal.length ∧
    (∀ j, j < signal.length →
      |signal.getD i 0 - v| ≤ |signal.getD j 0 - v|) ∧
    (∀ j, j < i → |signal.getD i 0 - v| < |signal.getD j 0 - v|) ∧
    APD90 signal offset timestep =
      some (if (i : ℚ) * timestep - offset < 1
            then (signal.length : ℚ) * timestep
            else (i : ℚ) * timestep - offset) := by
  have hne : signal.isEmpty = false := by
    cases signal with
    | nil => exact absurd rfl hs
    | cons a l => rfl
  have hdne : signal.map (fun x => |x - v|) ≠ [] := by
    cases signal with
    | nil => exact absurd rfl hs
    | cons a l => simp
  have hdlen : (signal.map (fun x => |x - v|)).length = signal.length :=
    List.length_map _ _
  have hget : ∀ j, j < signal.length →
      (signal.map (fun x => |x - v|)).getD j 0 = |signal.getD j 0 - v| := by
    intro j hj
    rw [List.getD_eq_getElem?_getD, List.getElem?_map,
        List.getElem?_eq_getElem hj]
    simp [List.getD_eq_getElem?_getD, List.getElem?_eq_getElem hj]
  have hlt : i < signal.length := by
    rw [hi]
    have := argminIdx_lt _ hdne
    omega
  refine ⟨hlt, ?_, ?_, ?_⟩
  · intro j hj
    have := argminIdx_min (signal.map (fun x => |x - v|)) j (by omega)
    rw [← hi] at this
    rwa [hget _ hlt, hget _ hj] at this
  · intro j hj
    have hjlt : j < signal.length := lt_trans hj hlt
    have := argminIdx_first (signal.map (fun x => |x - v|)) j (hi ▸ hj)
    rw [← hi] at this
    rwa [hget _ hlt, hget _ hjlt] at this
  · rw [APD90, hne]
    simp only [Bool.false_eq_true, if_false, ← hv, ← hi]

/-- C5 witness: a concrete series where the duration guard fires (the
closest sample to the threshold 1 is at index 0, giving duration 0 < 1,
so the whole length 4 * timestep is returned). -/
theorem APD90_first_closest_sample_witness :
    (([(0 : ℚ), 10, 2, 10] : List ℚ) ≠ []) ∧
    ((1 : ℚ) = minQ [(0 : ℚ), 10, 2, 10] +
      (1/10) * (maxQ [(0 : ℚ), 10, 2, 10] - minQ [(0 : ℚ), 10, 2, 10])) ∧
    (0 = argminIdx ([(0 : ℚ), 10, 2, 10].map (fun x => |x - 1|))) ∧
    (0 < ([(0 : ℚ), 10, 2, 10] : List ℚ).length ∧
     (∀ j, j < ([(0 : ℚ), 10, 2, 10] : List ℚ).length →
       |[(0 : ℚ), 10, 2, 10].getD 0 0 - 1| ≤ |[(0 : ℚ), 10, 2, 10].getD j 0 - 1|) ∧
     (∀ j, j < 0 →
       |[(0 : ℚ), 10, 2, 10].getD 0 0 - 1| < |[(0 : ℚ), 10, 2, 10].getD j 0 - 1|) ∧
     APD90 [(0 : ℚ), 10, 2, 10] 0 1 =
       some (if ((0 : ℕ) : ℚ) * 1 - 0 < 1
             then (([(0 : ℚ), 10, 2, 10] : List ℚ).length : ℚ) * 1
             else ((0 : ℕ) : ℚ) * 1 - 0)) :=
  ⟨by decide, by with_unfolding_all decide, by with_unfolding_all decide,
   APD90_first_closest_sample [(0 : ℚ), 10, 2, 10] 0 1 1 0
     (by decide) (by with_unfolding_all decide) (by with_unfolding_all decide)⟩

/-- The timestep computed on line 230 of binding_kinetics.py:
(max(time_signal) - min(time_signal)) / len(time_signal). -/
def apdTs (t : List ℚ) : ℚ := (maxQ t - minQ t) / (t.length : ℚ)

/-- The AP window of pulse i (lines 235-237):
Vm_signal[round(i * protocol_duration / timestep) :
round((i + 1) * (protocol_duration + offset) / timestep)]. -/
def apdWindow (vm : List ℚ) (pd offset ts : ℚ) (i : ℕ) : List ℚ :=
  pySlice vm (pyRound ((i : ℚ) * pd / ts))
    (pyRound (((i : ℚ) + 1) * (pd + offset) / ts))

/-- The 10 percent repolarization threshold of a window (lines 238-239):
min + 0.1 * (max - min). -/
def apdThreshold (w : List ℚ) : ℚ := minQ w + (1/10) * (maxQ w - minQ w)

/-- The first scanned index (lines 241-242, 246):
offset_index + min_APD = int(offset / timestep) + int(5 / timestep). -/
def scanStart (offset ts : ℚ) : ℤ := pyInt (offset / ts) + pyInt (5 / ts)

/-- The scanned voltage window AP_Vm[offset_index + min_APD:] of pulse i. -/
def apdVWin (t vm : List ℚ) (offset pd : ℚ) (i : ℕ) : List ℚ :=
  pySliceFrom (apdWindow vm pd offset (apdTs t) i) (scanStart offset (apdTs t))

/-- The scanned time window time_signal[offset_index + min_APD:]. -/
def apdTWin (t : List ℚ) (offset : ℚ) : List ℚ :=
  pySliceFrom t (scanStart offset (apdTs t))

/-- The threshold of pulse i of the signal. -/
def apdThr (t vm : List ℚ) (offset pd : ℚ) (i : ℕ) : ℚ :=
  apdThreshold (apdWindow vm pd offset (apdTs t) i)

/-- Lines 248-251: t_prev, v_prev, t_current are read with Python index
ind - 1 and ind (for ind = 0 the index -1 wraps to the last element; an
out-of-range read raises IndexError, a zero denominator raises; both are
modelled as none), and the crossing time is
t_prev + (APD90_v - v_prev) / (v - v_prev) * (t_current - t_prev). -/
def interpCross (tWin vWin : List ℚ) (thr : ℚ) (ind : ℕ) : Option ℚ :=
  match pyGetQ tWin ((ind : ℤ) - 1), pyGetQ vWin ((ind : ℤ) - 1),
        pyGetQ tWin (ind : ℤ), pyGetQ vWin (ind : ℤ) with
  | some tp, some vp, some tc, some v =>
      if v - vp = 0 then none
      else some (tp + (thr - vp) / (v - vp) * (tc - tp))
  | _, _, _, _ => none

/-- One iteration of the pulse loop of APD90_update (lines 235-259): max
of an empty window raises; start_time = time_signal[int(offset/timestep)];
the scan looks for the first sample strictly below the threshold; no
crossing gives float nan (some none); a found crossing is interpolated
and start_time subtracted. -/
def apd90_pulse (t w : List ℚ) (offset ts : ℚ) : Option (Option ℚ) :=
  if w.isEmpty then none
  else
    match pyGetQ t (pyInt (offset / ts)) with
    | none => none
    | some startTime =>
        match findFirstIdx (fun x => decide (x < apdThreshold w))
            (pySliceFrom w (scanStart offset ts)) with
        | none => some none
        | some ind =>
            match interpCross (pySliceFrom t (scanStart offset ts))
                (pySliceFrom w (scanStart offset ts)) (apdThreshold w) ind with
            | none => none
            | some e => some (some (e - startTime))

/-- BindingKinetics.APD90_update (lines 229-261).  The result is the list
of per-pulse APD90 values, one per loop iteration
i in range(round(len(Vm_signal) / len(time_signal))); a zero timestep
makes the first executed iteration raise (round and int of a float
infinity or nan). -/
def APD90_update (t vm : List ℚ) (offset pd : ℚ) : Option (List (Option ℚ)) :=
  if t.isEmpty then none
  else
    optMapRange
      (fun i =>
        if apdTs t = 0 then none
        else apd90_pulse t (apdWindow vm pd offset (apdTs t) i) offset (apdTs t))
      (pyRound ((vm.length : ℚ) / (t.length : ℚ))).toNat

/-- Helper: what one successful pulse iteration says.  If the pulse body
returns a value x, then x is the nan sentinel exactly when the scan
window has no sample strictly below the threshold. -/
theorem apd90_pulse_none_iff (t w : List ℚ) (offset ts : ℚ) (x : Option ℚ)
    (h : apd90_pulse t w offset ts = some x) :
    (x = none ↔
      ∀ y ∈ pySliceFrom w (scanStart offset ts), ¬(y < apdThreshold w)) := by
  unfold apd90_pulse at h
  split at h
  · cases h
  split at h
  · cases h
  next st hst =>
    split at h
    next hfind =>
      cases h
      refine iff_of_true rfl ?_
      intro y hy
      have hfy := (findFirstIdx_eq_none_iff _ _).mp hfind y hy
      simpa using of_decide_eq_false hfy
    next ind hfind =>
      split at h
      · cases h
      next e hic =>
        cases h
        refine iff_of_false (by simp) ?_
        intro hall
        obtain ⟨hlt, hp, _⟩ := findFirstIdx_eq_some _ _ _ hfind
        have hmem : (pySliceFrom w (scanStart offset ts)).getD ind 0 ∈
            pySliceFrom w (scanStart offset ts) := by
          rw [List.getD_eq_getElem?_getD, List.getElem?_eq_getElem hlt]
          exact List.getElem_mem _
        exact absurd (of_decide_eq_true hp) (hall _ hmem)

/-- Helper: extract the successful pulse-body equation from a successful
run of APD90_update. -/
theorem APD90_update_pulse (t vm : List ℚ) (offset pd : ℚ)
    (results : List (Option ℚ)) (i : ℕ)
    (hrun : APD90_update t vm offset pd = some results)
    (hi : i < results.length) :
    apd90_pulse t (apdWindow vm pd offset (apdTs t) i) offset (apdTs t) =
      some (results.getD i none) := by
  by_cases ht : t.isEmpty = true
  · rw [APD90_update, if_pos ht] at hrun; cases hrun
  rw [APD90_update, if_neg ht] at hrun
  have hn := optMapRange_length _ _ _ hrun
  have hfi := optMapRange_get _ _ _ none hrun i (by omega)
  simp only at hfi
  by_cases hts : apdTs t = 0
  · rw [if_pos hts] at hfi; cases hfi
  rwa [if_neg hts] at hfi

/-- C7: whenever a run of APD90_update returns a result list, the entry
of pulse i is the not-a-number sentinel (none) exactly when no sample of
the scan window of pulse i (the window past the refractory period) lies
strictly below the 10 percent repolarization threshold of that pulse; a
pulse with such a sample always gets a numeric value, never a synthetic
zero. -/
theorem APD90_update_nan_iff_no_crossing
    (t vm : List ℚ) (offset pd : ℚ) (results : List (Option ℚ)) (i : ℕ)
    (hrun : APD90_update t vm offset pd = some results)
    (hi : i < results.length) :
    (results.getD i none = none ↔
      ∀ x ∈ apdVWin t vm offset pd i, ¬(x < apdThr t vm offset pd i)) :=
  apd90_pulse_none_iff t (apdWindow vm pd offset (apdTs t) i) offset (apdTs t)
    (results.getD i none) (APD90_update_pulse t vm offset pd results i hrun hi)

/-- C7 witness: a constant voltage signal never falls strictly below its
threshold, so the single pulse yields the nan sentinel. -/
theorem APD90_update_nan_iff_no_crossing_witness :
    (APD90_update [(0 : ℚ), 1, 2, 3, 4, 5, 6, 7, 8, 9]
        [(5 : ℚ), 5, 5, 5, 5, 5, 5, 5, 5, 5] 0 9 = some [none]) ∧
    (0 < ([none] : List (Option ℚ)).length) ∧
    (([none] : List (Option ℚ)).getD 0 none = none ↔
      ∀ x ∈ apdVWin [(0 : ℚ), 1, 2, 3, 4, 5, 6, 7, 8, 9]
          [(5 : ℚ), 5, 5, 5, 5, 5, 5, 5, 5, 5] 0 9 0,
        ¬(x < apdThr [(0 : ℚ), 1, 2, 3, 4, 5, 6, 7, 8, 9]
            [(5 : ℚ), 5, 5, 5, 5, 5, 5, 5, 5, 5] 0 9 0)) :=
  ⟨by with_unfolding_all decide, by decide,
   APD90_update_nan_iff_no_crossing
     [(0 : ℚ), 1, 2, 3, 4, 5, 6, 7, 8, 9]
     [(5 : ℚ), 5, 5, 5, 5, 5, 5, 5, 5, 5] 0 9 [none] 0
     (by with_unfolding_all decide) (by decide)⟩

/-- Helper: a successful interpolation with ind at least 1 reads the
genuinely preceding sample (no negative-index wrap) and returns the
linear interpolation formula of lines 248-251. -/
theorem interpCross_eq_some (tWin vWin : List ℚ) (thr : ℚ) (ind : ℕ) (e : ℚ)
    (hind : 1 ≤ ind) (h : interpCross tWin vWin thr ind = some e) :
    ind < tWin.length ∧ ind < vWin.length ∧
    e = tWin.getD (ind - 1) 0 +
        (thr - vWin.getD (ind - 1) 0) /
          (vWin.getD ind 0 - vWin.getD (ind - 1) 0) *
          (tWin.getD ind 0 - tWin.getD (ind - 1) 0) := by
  unfold interpCross at h
  split at h
  next tp vp tc v htp hvp htc hv =>
    split at h
    · cases h
    next hden =>
      have he := Option.some.inj h
      have hnn1 : (0 : ℤ) ≤ (ind : ℤ) - 1 := by omega
      have hnn : (0 : ℤ) ≤ (ind : ℤ) := Int.ofNat_nonneg ind
      have ht1 : ((ind : ℤ) - 1).toNat = ind - 1 := by omega
      have htn : ((ind : ℤ)).toNat = ind := by omega
      obtain ⟨htpl, htpe⟩ := (pyGetQ_of_nonneg tWin _ hnn1 tp).mp htp
      obtain ⟨hvpl, hvpe⟩ := (pyGetQ_of_nonneg vWin _ hnn1 vp).mp hvp
      obtain ⟨htcl, htce⟩ := (pyGetQ_of_nonneg tWin _ hnn tc).mp htc
      obtain ⟨hvl, hve⟩ := (pyGetQ_of_nonneg vWin _ hnn v).mp hv
      rw [ht1] at htpe hvpe
      rw [htn] at htce hve
      refine ⟨by omega, by omega, ?_⟩
      rw [← he, htpe, hvpe, htce, hve]
  next hnomatch =>
    cases h

/-- C6 (amended): whenever APD90_update returns results and the scan of
pulse i finds its first strictly-below-threshold sample at a position ind
of at least 1 past the start of the scan window, the pulse result is the
linear interpolation between that sample and the sample preceding it,
minus the start time time_signal[int(offset/timestep)] read at the
supplied offset.  (The amendment: for ind = 0 the Python index ind - 1
wraps to the last element of the scan window instead of the preceding
sample; see the counterexample.) -/
theorem APD90_update_interpolates
    (t vm : List ℚ) (offset pd : ℚ) (results : List (Option ℚ)) (i ind : ℕ)
    (hrun : APD90_update t vm offset pd = some results)
    (hi : i < results.length)
    (hfind : findFirstIdx (fun x => decide (x < apdThr t vm offset pd i))
        (apdVWin t vm offset pd i) = some ind)
    (hind : 1 ≤ ind) :
    ind < (apdVWin t vm offset pd i).length ∧
    (apdVWin t vm offset pd i).getD ind 0 < apdThr t vm offset pd i ∧
    (∀ k < ind,
      ¬((apdVWin t vm offset pd i).getD k 0 < apdThr t vm offset pd i)) ∧
    ind < (apdTWin t offset).length ∧
    (∀ st, pyGetQ t (pyInt (offset / apdTs t)) = some st →
      results.getD i none = some
        ((apdTWin t offset).getD (ind - 1) 0 +
          (apdThr t vm offset pd i -
            (apdVWin t vm offset pd i).getD (ind - 1) 0) /
            ((apdVWin t vm offset pd i).getD ind 0 -
              (apdVWin t vm offset pd i).getD (ind - 1) 0) *
            ((apdTWin t offset).getD ind 0 -
              (apdTWin t offset).getD (ind - 1) 0)
          - st)) := by
  have hp := APD90_update_pulse t vm offset pd results i hrun hi
  unfold apdThr apdVWin at hfind
  unfold apdThr apdVWin apdTWin
  unfold apd90_pulse at hp
  split at hp
  · cases hp
  split at hp
  · cases hp
  next st0 hst0 =>
    split at hp
    next hfind0 =>
      rw [hfind] at hfind0
      cases hfind0
    next ind0 hfind0 =>
      rw [hfind] at hfind0
      have hii : ind0 = ind := (Option.some.inj hfind0).symm
      subst hii
      split at hp
      · cases hp
      next e hic =>
        have hres := Option.some.inj hp
        obtain ⟨htl, hvl, he⟩ := interpCross_eq_some _ _ _ _ _ hind hic
        obtain ⟨hfl, hfp, hffirst⟩ := findFirstIdx_eq_some _ _ _ hfind
        refine ⟨hfl, ?_, ?_, htl, ?_⟩
        · exact of_decide_eq_true hfp
        · intro k hk
          have := hffirst k hk
          simpa using of_decide_eq_false this
        · intro st hst
          rw [hst0] at hst
          have hstst : st0 = st := Option.some.inj hst
          rw [← hres, ← hstst, he]

/-- C6 counterexample (the claim as stated is false): in this signal the
very first scanned sample (value 5 at time 5) is already strictly below
the threshold 10, so ind = 0 and the Python read AP_Vm[...][ind - 1]
wraps to the LAST sample of the scan window (time 9) instead of the
preceding sample (value 100 at time 4).  The code returns 99/19, whereas
interpolating between the crossing sample and the sample actually
preceding it would give 4 + (10 - 100)/(5 - 100)*(5 - 4) = 94/19. -/
theorem APD90_update_wrap_counterexample :
    (APD90_update [(0 : ℚ), 1, 2, 3, 4, 5, 6, 7, 8, 9]
        [(0 : ℚ), 100, 100, 100, 100, 5, 100, 100, 100, 100] 0 9
      = some [some (99/19)]) ∧
    ((99 : ℚ)/19 ≠ 4 + ((10 : ℚ) - 100) / (5 - 100) * (5 - 4)) := by
  constructor
  · with_unfolding_all decide
  · with_unfolding_all decide

/-- C6 witness: a pulse whose first below-threshold sample occurs at scan
position 2; the returned value interpolates it with the sample before it. -/
theorem APD90_update_interpolates_witness :
    (APD90_update [(0 : ℚ), 1, 2, 3, 4, 5, 6, 7, 8, 9]
        [(0 : ℚ), 100, 100, 100, 100, 100, 100, 4, 100, 100] 0 9
      = some [some (111/16)]) ∧
    (0 < ([some ((111 : ℚ)/16)] : List (Option ℚ)).length) ∧
    (findFirstIdx (fun x => decide (x < apdThr [(0 : ℚ), 1, 2, 3, 4, 5, 6, 7, 8, 9]
        [(0 : ℚ), 100, 100, 100, 100, 100, 100, 4, 100, 100] 0 9 0))
      (apdVWin [(0 : ℚ), 1, 2, 3, 4, 5, 6, 7, 8, 9]
        [(0 : ℚ), 100, 100, 100, 100, 100, 100, 4, 100, 100] 0 9 0) = some 2) ∧
    (1 ≤ 2) ∧
    (2 < (apdVWin [(0 : ℚ), 1, 2, 3, 4, 5, 6, 7, 8, 9]
        [(0 : ℚ), 100, 100, 100, 100, 100, 100, 4, 100, 100] 0 9 0).length ∧
     (apdVWin [(0 : ℚ), 1, 2, 3, 4, 5, 6, 7, 8, 9]
        [(0 : ℚ), 100, 100, 100, 100, 100, 100, 4, 100, 100] 0 9 0).getD 2 0 <
       apdThr [(0 : ℚ), 1, 2, 3, 4, 5, 6, 7, 8, 9]
        [(0 : ℚ), 100, 100, 100, 100, 100, 100, 4, 100, 100] 0 9 0 ∧
     (∀ k < 2,
       ¬((apdVWin [(0 : ℚ), 1, 2, 3, 4, 5, 6, 7, 8, 9]
          [(0 : ℚ), 100, 100, 100, 100, 100, 100, 4, 100, 100] 0 9 0).getD k 0 <
         apdThr [(0 : ℚ), 1, 2, 3, 4, 5, 6, 7, 8, 9]
          [(0 : ℚ), 100, 100, 100, 100, 100, 100, 4, 100, 100] 0 9 0)) ∧
     2 < (apdTWin [(0 : ℚ), 1, 2, 3, 4, 5, 6, 7, 8, 9] 0).length ∧
     (∀ st, pyGetQ [(0 : ℚ), 1, 2, 3, 4, 5, 6, 7, 8, 9]
         (pyInt (0 / apdTs [(0 : ℚ), 1, 2, 3, 4, 5, 6, 7, 8, 9])) = some st →
       ([some ((111 : ℚ)/16)] : List (Option ℚ)).getD 0 none = some
         ((apdTWin [(0 : ℚ), 1, 2, 3, 4, 5, 6, 7, 8, 9] 0).getD (2 - 1) 0 +
           (apdThr [(0 : ℚ), 1, 2, 3, 4, 5, 6, 7, 8, 9]
              [(0 : ℚ), 100, 100, 100, 100, 100, 100, 4, 100, 100] 0 9 0 -
             (apdVWin [(0 : ℚ), 1, 2, 3, 4, 5, 6, 7, 8, 9]
              [(0 : ℚ), 100, 100, 100, 100, 100, 100, 4, 100, 100] 0 9 0).getD (2 - 1) 0) /
             ((apdVWin [(0 : ℚ), 1, 2, 3, 4, 5, 6, 7, 8, 9]
              [(0 : ℚ), 100, 100, 100, 100, 100, 100, 4, 100, 100] 0 9 0).getD 2 0 -
               (apdVWin [(0 : ℚ), 1, 2, 3, 4, 5, 6, 7, 8, 9]
              [(0 : ℚ), 100, 100, 100, 100, 100, 100, 4, 100, 100] 0 9 0).getD (2 - 1) 0) *
             ((apdTWin [(0 : ℚ), 1, 2, 3, 4, 5, 6, 7, 8, 9] 0).getD 2 0 -
               (apdTWin [(0 : ℚ), 1, 2, 3, 4, 5, 6, 7, 8, 9] 0).getD (2 - 1) 0)
           - st))) :=
  ⟨by with_unfolding_all decide, by decide, by with_unfolding_all decide,
   by decide,
   APD90_update_interpolates [(0 : ℚ), 1, 2, 3, 4, 5, 6, 7, 8, 9]
     [(0 : ℚ), 100, 100, 100, 100, 100, 100, 4, 100, 100] 0 9
     [some ((111 : ℚ)/16)] 0 2
     (by with_unfolding_all decide) (by decide)
     (by with_unfolding_all decide) (by decide)⟩

/-
Simulation Driver (binding_kinetics.py, class BindingKinetics).

The external myokit solver is a black box; a simulation call is embedded
as the SimConfig value handed to it: the constant assignment after the
set_constant calls, the initial state the fresh Simulation starts from,
the tolerances, the pre-pacing and recording durations, the log interval,
the logged variables and the folding period.  Two calls produce the same
output log for every solver exactly when their SimConfig values agree.
The constants the driver touches are the ConstName constructors; every
other model constant is reached through ConstName.other.
-/

inductive ConstName where
  | Vhalf
  | Kmax
  | Ku
  | n
  | halfmax
  | Kt
  | gKr
  | other (name : String)
deriving DecidableEq

abbrev Consts := ConstName → ℚ

/-- sim.set_constant(var, value). -/
def setConst (f : Consts) (k : ConstName) (v : ℚ) : Consts :=
  fun s => if s = k then v else f s

/-- A model state vector, split into the drug concentration state ikr.D
(which the driver writes) and the remaining state components. -/
structure MState where
  D : ℚ
  rest : String → ℚ

/-- The mutable myokit model owned by a BindingKinetics instance: its
constants and its current state values (the state a fresh Simulation
starts from). -/
structure MyokitModel where
  constants : Consts
  state : MState

/-- A pacing protocol, exposing protocol.characteristic_time(). -/
structure Protocol where
  characteristic_time : ℚ

/-- The original_constants dict saved in BindingKinetics.__init__
(lines 36-43); the key EC50 holds the eval of the variable halfmax. -/
structure OrigConsts where
  Vhalf : ℚ
  Kmax : ℚ
  Ku : ℚ
  n : ℚ
  EC50 : ℚ
  Kt : ℚ
  gKr : ℚ
deriving DecidableEq

structure BindingKinetics where
  model : MyokitModel
  protocol : Protocol
  original_constants : OrigConsts

/-- BindingKinetics.__init__ (lines 22-43): keeps the model and protocol
and saves the model constants at construction time. -/
def BindingKinetics.init (model : MyokitModel) (protocol : Protocol) :
    BindingKinetics :=
  { model := model, protocol := protocol,
    original_constants :=
      { Vhalf := model.constants .Vhalf
        Kmax := model.constants .Kmax
        Ku := model.constants .Ku
        n := model.constants .n
        EC50 := model.constants .halfmax
        Kt := model.constants .Kt
        gKr := model.constants .gKr } }

/-- The configuration a simulation call passes to the external solver. -/
structure SimConfig where
  constants : Consts
  initState : MState
  absTol : ℚ
  relTol : ℚ
  preDuration : ℚ
  runDuration : ℚ
  logInterval : ℚ
  logVars : Option (List String)
  foldPeriod : Option ℚ

/-- BindingKinetics.drug_simulation (lines 45-92): looks up the binding
parameters of the drug, sets the model state ikr.D to the concentration
(set_state_value, a persistent model mutation), builds a fresh Simulation
from the model, overrides the start state by set_state (with its ikr.D
component replaced by the concentration) when one is supplied, installs
the five binding constants, the fixed Kt = 3.5e-5 and the original gKr,
pre-paces t_max*(repeats - save_signal) and records t_max*save_signal,
folding when save_signal > 1.  Returns the solver configuration and the
mutated instance. -/
def BindingKinetics.drug_simulation (bk : BindingKinetics) (drug : DrugName)
    (drug_conc : ℚ) (repeats : ℕ) (timestep : ℚ) (save_signal : ℕ)
    (log_var : Option (List String)) (set_state : Option MState)
    (abs_tol rel_tol : ℚ) (protocol_period : Option ℚ) :
    SimConfig × BindingKinetics :=
  let p := binding_parameters drug
  let t_max := match protocol_period with
    | none => bk.protocol.characteristic_time
    | some tp => tp
  let model2 : MyokitModel :=
    { bk.model with state := { bk.model.state with D := drug_conc } }
  let initState : MState := match set_state with
    | none => model2.state
    | some s => { s with D := drug_conc }
  let consts :=
    setConst (setConst (setConst (setConst (setConst (setConst (setConst
      bk.model.constants
      .Vhalf p.Vhalf) .Kmax p.Kmax) .Ku p.Ku) .n p.N) .halfmax p.EC50)
      .Kt (35/1000000)) .gKr bk.original_constants.gKr
  ({ constants := consts, initState := initState,
     absTol := abs_tol, relTol := rel_tol,
     preDuration := t_max * ((((repeats : ℤ) - (save_signal : ℤ)) : ℤ) : ℚ),
     runDuration := t_max * (save_signal : ℚ),
     logInterval := timestep, logVars := log_var,
     foldPeriod := if save_signal > 1 then some t_max else none },
   { bk with model := model2 })

/-- The one-row parameter table handed to custom_simulation and to
param_evaluation (columns Vhalf, Kmax, Ku, N, EC50). -/
structure ParamValues where
  Vhalf : ℚ
  Kmax : ℚ
  Ku : ℚ
  N : ℚ
  EC50 : ℚ
deriving DecidableEq

/-- BindingKinetics.custom_simulation (lines 94-130): as drug_simulation
but with the parameter values taken from the supplied table and no
set_state or protocol_period arguments. -/
def BindingKinetics.custom_simulation (bk : BindingKinetics)
    (param_values : ParamValues) (drug_conc : ℚ) (repeats : ℕ)
    (timestep : ℚ) (save_signal : ℕ) (log_var : Option (List String))
    (abs_tol rel_tol : ℚ) :
    SimConfig × BindingKinetics :=
  let t_max := bk.protocol.characteristic_time
  let model2 : MyokitModel :=
    { bk.model with state := { bk.model.state with D := drug_conc } }
  let consts :=
    setConst (setConst (setConst (setConst (setConst (setConst (setConst
      bk.model.constants
      .Vhalf param_values.Vhalf) .Kmax param_values.Kmax)
      .Ku param_values.Ku) .n param_values.N) .halfmax param_values.EC50)
      .Kt (35/1000000)) .gKr bk.original_constants.gKr
  ({ constants := consts, initState := model2.state,
     absTol := abs_tol, relTol := rel_tol,
     preDuration := t_max * ((((repeats : ℤ) - (save_signal : ℤ)) : ℤ) : ℚ),
     runDuration := t_max * (save_signal : ℚ),
     logInterval := timestep, logVars := log_var,
     foldPeriod := if save_signal > 1 then some t_max else none },
   { bk with model := model2 })

/-- BindingKinetics.conductance_simulation (lines 132-165): builds a
fresh Simulation from the model (without touching ikr.D), optionally
starts from a supplied state, restores Vhalf, Kmax, Ku, n, halfmax and Kt
to the constants saved at construction, and sets gKr to the supplied
conductance. -/
def BindingKinetics.conductance_simulation (bk : BindingKinetics)
    (conductance : ℚ) (repeats : ℕ) (timestep : ℚ) (save_signal : ℕ)
    (log_var : Option (List String)) (abs_tol rel_tol : ℚ)
    (set_state : Option MState) :
    SimConfig × BindingKinetics :=
  let t_max := bk.protocol.characteristic_time
  let initState : MState := match set_state with
    | none => bk.model.state
    | some s => s
  let consts :=
    setConst (setConst (setConst (setConst (setConst (setConst (setConst
      bk.model.constants
      .Vhalf bk.original_constants.Vhalf) .Kmax bk.original_constants.Kmax)
      .Ku bk.original_constants.Ku) .n bk.original_constants.n)
      .halfmax bk.original_constants.EC50) .Kt bk.original_constants.Kt)
      .gKr conductance
  ({ constants := consts, initState := initState,
     absTol := abs_tol, relTol := rel_tol,
     preDuration := t_max * ((((repeats : ℤ) - (save_signal : ℤ)) : ℤ) : ℚ),
     runDuration := t_max * (save_signal : ℚ),
     logInterval := timestep, logVars := log_var,
     foldPeriod := if save_signal > 1 then some t_max else none },
   bk)

/-- One simulation call on a BindingKinetics instance (used to speak
about call histories). -/
inductive SimOp where
  | drugSim (drug : DrugName) (drug_conc : ℚ) (repeats : ℕ) (timestep : ℚ)
      (save_signal : ℕ) (log_var : Option (List String))
      (set_state : Option MState) (abs_tol rel_tol : ℚ)
      (protocol_period : Option ℚ)
  | customSim (param_values : ParamValues) (drug_conc : ℚ) (repeats : ℕ)
      (timestep : ℚ) (save_signal : ℕ) (log_var : Option (List String))
      (abs_tol rel_tol : ℚ)
  | conductanceSim (conductance : ℚ) (repeats : ℕ) (timestep : ℚ)
      (save_signal : ℕ) (log_var : Option (List String))
      (abs_tol rel_tol : ℚ) (set_state : Option MState)

/-- The state of the instance after one simulation call. -/
def applyOp (bk : BindingKinetics) : SimOp → BindingKinetics
  | .drugSim d c r ts ss lv sst aT rT pp =>
      (bk.drug_simulation d c r ts ss lv sst aT rT pp).2
  | .customSim pv c r ts ss lv aT rT =>
      (bk.custom_simulation pv c r ts ss lv aT rT).2
  | .conductanceSim g r ts ss lv aT rT sst =>
      (bk.conductance_simulation g r ts ss lv aT rT sst).2

/-- The state of the instance after a history of simulation calls. -/
def runOps (bk : BindingKinetics) : List SimOp → BindingKinetics
  | [] => bk
  | op :: ops => runOps (applyOp bk op) ops

theorem applyOp_frame (bk : BindingKinetics) (op : SimOp) :
    (applyOp bk op).model.constants = bk.model.constants ∧
    (applyOp bk op).model.state.rest = bk.model.state.rest ∧
    (applyOp bk op).original_constants = bk.original_constants ∧
    (applyOp bk op).protocol = bk.protocol := by
  cases op <;>
    exact ⟨rfl, rfl, rfl, rfl⟩

theorem runOps_frame (bk : BindingKinetics) (ops : List SimOp) :
    (runOps bk ops).model.constants = bk.model.constants ∧
    (runOps bk ops).model.state.rest = bk.model.state.rest ∧
    (runOps bk ops).original_constants = bk.original_constants ∧
    (runOps bk ops).protocol = bk.protocol := by
  induction ops generalizing bk with
  | nil => exact ⟨rfl, rfl, rfl, rfl⟩
  | cons op ops ih =>
    obtain ⟨h1, h2, h3, h4⟩ := applyOp_frame bk op
    obtain ⟨g1, g2, g3, g4⟩ := ih (applyOp bk op)
    exact ⟨g1.trans h1, g2.trans h2, g3.trans h3, g4.trans h4⟩

theorem mstate_eq (a b : MState) (hD : a.D = b.D) (hr : a.rest = b.rest) :
    a = b := by
  cases a; cases b
  cases hD; cases hr
  rfl

theorem drug_simulation_congr (bk bk2 : BindingKinetics)
    (h1 : bk2.model.constants = bk.model.constants)
    (h2 : bk2.model.state.rest = bk.model.state.rest)
    (h3 : bk2.original_constants = bk.original_constants)
    (h4 : bk2.protocol = bk.protocol)
    (d : DrugName) (c : ℚ) (r : ℕ) (ts : ℚ) (ss : ℕ)
    (lv : Option (List String)) (sst : Option MState) (aT rT : ℚ)
    (pp : Option ℚ) :
    bk2.drug_simulation d c r ts ss lv sst aT rT pp
      = bk.drug_simulation d c r ts ss lv sst aT rT pp := by
  unfold BindingKinetics.drug_simulation
  simp only [h1, h2, h3, h4]

theorem custom_simulation_congr (bk bk2 : BindingKinetics)
    (h1 : bk2.model.constants = bk.model.constants)
    (h2 : bk2.model.state.rest = bk.model.state.rest)
    (h3 : bk2.original_constants = bk.original_constants)
    (h4 : bk2.protocol = bk.protocol)
    (pv : ParamValues) (c : ℚ) (r : ℕ) (ts : ℚ) (ss : ℕ)
    (lv : Option (List String)) (aT rT : ℚ) :
    bk2.custom_simulation pv c r ts ss lv aT rT
      = bk.custom_simulation pv c r ts ss lv aT rT := by
  unfold BindingKinetics.custom_simulation
  simp only [h1, h2, h3, h4]

theorem conductance_simulation_state_congr (bk bk2 : BindingKinetics)
    (h1 : bk2.model.constants = bk.model.constants)
    (h2 : bk2.model.state = bk.model.state)
    (h3 : bk2.original_constants = bk.original_constants)
    (h4 : bk2.protocol = bk.protocol)
    (g : ℚ) (r : ℕ) (ts : ℚ) (ss : ℕ)
    (lv : Option (List String)) (aT rT : ℚ) (sst : Option MState) :
    (bk2.conductance_simulation g r ts ss lv aT rT sst).1
      = (bk.conductance_simulation g r ts ss lv aT rT sst).1 := by
  unfold BindingKinetics.conductance_simulation
  simp only [h1, h2, h3, h4]

theorem conductance_simulation_some_congr (bk bk2 : BindingKinetics)
    (h1 : bk2.model.constants = bk.model.constants)
    (h3 : bk2.original_constants = bk.original_constants)
    (h4 : bk2.protocol = bk.protocol)
    (g : ℚ) (r : ℕ) (ts : ℚ) (ss : ℕ)
    (lv : Option (List String)) (aT rT : ℚ) (s0 : MState) :
    (bk2.conductance_simulation g r ts ss lv aT rT (some s0)).1
      = (bk.conductance_simulation g r ts ss lv aT rT (some s0)).1 := by
  unfold BindingKinetics.conductance_simulation
  simp only [h1, h3, h4]

/-- C2: after any history of simulation calls on an instance constructed
from model m, a conductance_simulation call hands the solver a constant
assignment in which every binding-kinetics constant (Vhalf, Kmax, Ku, n,
halfmax alias EC50, Kt) carries the no-drug value saved from m at
construction, every other constant still carries its model value, and
only gKr is changed, to the supplied conductance. -/
theorem conductance_restores_original_constants
    (m : MyokitModel) (p : Protocol) (ops : List SimOp)
    (g : ℚ) (r : ℕ) (ts : ℚ) (ss : ℕ) (lv : Option (List String))
    (aT rT : ℚ) (sst : Option MState) :
    (((runOps (BindingKinetics.init m p) ops).conductance_simulation
        g r ts ss lv aT rT sst).1.constants .Vhalf = m.constants .Vhalf) ∧
    (((runOps (BindingKinetics.init m p) ops).conductance_simulation
        g r ts ss lv aT rT sst).1.constants .Kmax = m.constants .Kmax) ∧
    (((runOps (BindingKinetics.init m p) ops).conductance_simulation
        g r ts ss lv aT rT sst).1.constants .Ku = m.constants .Ku) ∧
    (((runOps (BindingKinetics.init m p) ops).conductance_simulation
        g r ts ss lv aT rT sst).1.constants .n = m.constants .n) ∧
    (((runOps (BindingKinetics.init m p) ops).conductance_simulation
        g r ts ss lv aT rT sst).1.constants .halfmax = m.constants .halfmax) ∧
    (((runOps (BindingKinetics.init m p) ops).conductance_simulation
        g r ts ss lv aT rT sst).1.constants .Kt = m.constants .Kt) ∧
    (((runOps (BindingKinetics.init m p) ops).conductance_simulation
        g r ts ss lv aT rT sst).1.constants .gKr = g) ∧
    (∀ name : String,
      ((runOps (BindingKinetics.init m p) ops).conductance_simulation
        g r ts ss lv aT rT sst).1.constants (.other name)
        = m.constants (.other name)) := by
  obtain ⟨h1, _, h3, _⟩ := runOps_frame (BindingKinetics.init m p) ops
  exact ⟨congrArg OrigConsts.Vhalf h3, congrArg OrigConsts.Kmax h3,
         congrArg OrigConsts.Ku h3, congrArg OrigConsts.n h3,
         congrArg OrigConsts.EC50 h3, congrArg OrigConsts.Kt h3, rfl,
         fun name => congrArg (fun f => f (ConstName.other name)) h1⟩

/-- C3: for every drug name (the lookup table is total on the library
keys) and every simulation call, and for every parameter tuple passed to
custom_simulation, the installed trafficking-rate constant Kt is the
literal 3.5e-5 = 35/1000000, independent of the drug binding parameters
(lines 79 and 117 of binding_kinetics.py). -/
theorem trafficking_rate_constant_fixed
    (bk : BindingKinetics) (drug : DrugName) (drug_conc : ℚ) (r : ℕ)
    (ts : ℚ) (ss : ℕ) (lv : Option (List String)) (sst : Option MState)
    (aT rT : ℚ) (pp : Option ℚ) (pv : ParamValues) (c2 : ℚ) :
    ((bk.drug_simulation drug drug_conc r ts ss lv sst aT rT pp).1.constants
        .Kt = 35/1000000) ∧
    ((bk.custom_simulation pv c2 r ts ss lv aT rT).1.constants
        .Kt = 35/1000000) :=
  ⟨rfl, rfl⟩

/-- C8 (amended): the solver configuration of drug_simulation does not
depend on the prior call history at all (the call overwrites the only
state component, ikr.D, that earlier calls persist into the model), so
two calls with identical arguments give identical configurations and
hence bit-for-bit identical logs from any solver; conductance_simulation
with an explicitly supplied starting state is likewise
history-insensitive; conductance_simulation without one depends on the
history exactly through the persisted ikr.D state: any two histories
leaving the same ikr.D value give it identical configurations.  (The
amendment: the original claim asserted full order-insensitivity also for
conductance_simulation without a supplied starting state; the
counterexample shows its starting state inherits the ikr.D left by a
prior drug_simulation call.) -/
theorem simulation_call_independence
    (m : MyokitModel) (p : Protocol) (ops ops2 : List SimOp)
    (d : DrugName) (c : ℚ) (r : ℕ) (ts : ℚ) (ss : ℕ)
    (lv : Option (List String)) (sst : Option MState) (aT rT : ℚ)
    (pp : Option ℚ) (g : ℚ) (s0 : MState) :
    ((runOps (BindingKinetics.init m p) ops).drug_simulation
        d c r ts ss lv sst aT rT pp
      = (BindingKinetics.init m p).drug_simulation d c r ts ss lv sst aT rT pp) ∧
    (((runOps (BindingKinetics.init m p) ops).drug_simulation
        d c r ts ss lv sst aT rT pp).2.drug_simulation d c r ts ss lv sst aT rT pp
      = (runOps (BindingKinetics.init m p) ops).drug_simulation
          d c r ts ss lv sst aT rT pp) ∧
    (((runOps (BindingKinetics.init m p) ops).conductance_simulation
        g r ts ss lv aT rT (some s0)).1
      = ((BindingKinetics.init m p).conductance_simulation
          g r ts ss lv aT rT (some s0)).1) ∧
    ((runOps (BindingKinetics.init m p) ops2).model.state.D
        = (runOps (BindingKinetics.init m p) ops).model.state.D →
      ((runOps (BindingKinetics.init m p) ops2).conductance_simulation
          g r ts ss lv aT rT none).1
        = ((runOps (BindingKinetics.init m p) ops).conductance_simulation
            g r ts ss lv aT rT none).1) := by
  obtain ⟨h1, h2, h3, h4⟩ := runOps_frame (BindingKinetics.init m p) ops
  obtain ⟨k1, k2, k3, k4⟩ := runOps_frame (BindingKinetics.init m p) ops2
  refine ⟨?_, ?_, ?_, ?_⟩
  · exact drug_simulation_congr _ _ h1 h2 h3 h4 d c r ts ss lv sst aT rT pp
  · exact drug_simulation_congr _ _ rfl rfl rfl rfl d c r ts ss lv sst aT rT pp
  · exact conductance_simulation_some_congr _ _ h1 h3 h4 g r ts ss lv aT rT s0
  · intro hD
    exact conductance_simulation_state_congr _ _
      (k1.trans h1.symm)
      (mstate_eq _ _ hD (k2.trans h2.symm))
      (k3.trans h3.symm) (k4.trans h4.symm) g r ts ss lv aT rT none

/-- C8 counterexample (the claim as stated is false): the same
conductance_simulation call, with no explicitly supplied starting state,
hands the solver a starting drug concentration ikr.D of 5 when it
follows a drug_simulation call at concentration 5, and of 0 on a fresh
instance of the identical model, because drug_simulation persistently
writes the concentration into the model state and conductance_simulation
does not reset it.  The configurations differ, so any solver whose
output depends on its starting state produces different logs. -/
theorem conductance_depends_on_prior_call_cex :
    (((applyOp
        (BindingKinetics.init
          { constants := fun _ => 1, state := { D := 0, rest := fun _ => 2 } }
          { characteristic_time := 25000 })
        (SimOp.drugSim .dofetilide 5 1000 (1/10) 1 none none
          (1/1000000) (1/10000) none)).conductance_simulation
        1 1000 (1/10) 1 none (1/1000000) (1/10000) none).1.initState.D = 5) ∧
    (((BindingKinetics.init
          { constants := fun _ => 1, state := { D := 0, rest := fun _ => 2 } }
          { characteristic_time := 25000 }).conductance_simulation
        1 1000 (1/10) 1 none (1/1000000) (1/10000) none).1.initState.D = 0) ∧
    ((5 : ℚ) ≠ 0) :=
  ⟨rfl, rfl, by decide⟩

/-- C8 witness: the amended theorem instantiated on a concrete instance
and the empty history, with the equal-state hypothesis of its last part
discharged by reflexivity. -/
theorem simulation_call_independence_witness :
    ((runOps (BindingKinetics.init
        { constants := fun _ => 3, state := { D := 0, rest := fun _ => 4 } }
        { characteristic_time := 1000 }) []).drug_simulation
        .verapamil 9 2 1 1 none none 1 1 none
      = (BindingKinetics.init
        { constants := fun _ => 3, state := { D := 0, rest := fun _ => 4 } }
        { characteristic_time := 1000 }).drug_simulation
        .verapamil 9 2 1 1 none none 1 1 none) ∧
    (((runOps (BindingKinetics.init
        { constants := fun _ => 3, state := { D := 0, rest := fun _ => 4 } }
        { characteristic_time := 1000 }) []).drug_simulation
        .verapamil 9 2 1 1 none none 1 1 none).2.drug_simulation
        .verapamil 9 2 1 1 none none 1 1 none
      = (runOps (BindingKinetics.init
        { constants := fun _ => 3, state := { D := 0, rest := fun _ => 4 } }
        { characteristic_time := 1000 }) []).drug_simulation
        .verapamil 9 2 1 1 none none 1 1 none) ∧
    (((runOps (BindingKinetics.init
        { constants := fun _ => 3, state := { D := 0, rest := fun _ => 4 } }
        { characteristic_time := 1000 }) []).conductance_simulation
        7 2 1 1 none 1 1 (some { D := 6, rest := fun _ => 8 })).1
      = ((BindingKinetics.init
        { constants := fun _ => 3, state := { D := 0, rest := fun _ => 4 } }
        { characteristic_time := 1000 }).conductance_simulation
        7 2 1 1 none 1 1 (some { D := 6, rest := fun _ => 8 })).1) ∧
    (((runOps (BindingKinetics.init
        { constants := fun _ => 3, state := { D := 0, rest := fun _ => 4 } }
        { characteristic_time := 1000 }) []).conductance_simulation
        7 2 1 1 none 1 1 none).1
      = ((runOps (BindingKinetics.init
        { constants := fun _ => 3, state := { D := 0, rest := fun _ => 4 } }
        { characteristic_time := 1000 }) []).conductance_simulation
        7 2 1 1 none 1 1 none).1) :=
  ⟨(simulation_call_independence
      { constants := fun _ => 3, state := { D := 0, rest := fun _ => 4 } }
      { characteristic_time := 1000 } [] [] .verapamil 9 2 1 1 none none 1 1
      none 7 { D := 6, rest := fun _ => 8 }).1,
   (simulation_call_independence
      { constants := fun _ => 3, state := { D := 0, rest := fun _ => 4 } }
      { characteristic_time := 1000 } [] [] .verapamil 9 2 1 1 none none 1 1
      none 7 { D := 6, rest := fun _ => 8 }).2.1,
   (simulation_call_independence
      { constants := fun _ => 3, state := { D := 0, rest := fun _ => 4 } }
      { characteristic_time := 1000 } [] [] .verapamil 9 2 1 1 none none 1 1
      none 7 { D := 6, rest := fun _ => 8 }).2.2.1,
   (simulation_call_independence
      { constants := fun _ => 3, state := { D := 0, rest := fun _ => 4 } }
      { characteristic_time := 1000 } [] [] .verapamil 9 2 1 1 none none 1 1
      none 7 { D := 6, rest := fun _ => 8 }).2.2.2 rfl⟩

/-
Model Comparison Controller entry point (scripts/SA_drugs.py,
param_evaluation, lines 48-115).

The ModelComparison methods compute_Hill, APD_sim, compute_RMSE and
compute_ME live outside src; they are passed in as opaque function
arguments, and the outcome of the Hill fit is an explicit input: either
the failure marker string the optimizer returns, or the list of numeric
coefficients.  Float values that may be NaN are Option Rat (none = NaN).
The embedding is a total function: every input yields a result row, so
no unhandled exception is possible in the modelled fragment.
-/

/-- The APD_points constant of SA_drugs.py (line 37). -/
def APD_points : ℕ := 20

/-- The row assembled into big_df at the end of param_evaluation
(lines 94-115). -/
structure EvalOutput where
  drug : DrugName
  drug_conc_Hill : List ℚ
  peaks_norm : List ℚ
  hill_coefs : List (Option ℚ)
  param_values : List ℚ
  drug_conc_AP : List ℚ
  APD_trapping : List (Option ℚ)
  APD_conductance : List (Option ℚ)
  RMSE : Option ℚ
  ME : Option ℚ

/-- param_evaluation (SA_drugs.py lines 48-115).  apGrid stands for the
concentration grid 10**linspace(log10(conc[1]), log10(max conc),
APD_points) of lines 71-73; apdSim, computeRMSE and computeME stand for
ComparisonController.APD_sim, compute_RMSE and compute_ME; hillFit is
what ComparisonController.compute_Hill returned: a failure marker string
or the Hill coefficients. -/
def param_evaluation
    (apGrid : List ℚ → List ℚ)
    (apdSim : List ℚ → List ℚ → List (Option ℚ) × List (Option ℚ) × List ℚ)
    (computeRMSE computeME : List (Option ℚ) → List (Option ℚ) → Option ℚ)
    (drug : DrugName) (pv : ParamValues)
    (hillFit : Sum String (List ℚ))
    (drug_conc_Hill peaks_norm : List ℚ) : EvalOutput :=
  let drug_conc_AP := apGrid drug_conc_Hill
  match hillFit with
  | .inl _ =>
      { drug := drug, drug_conc_Hill := drug_conc_Hill,
        peaks_norm := peaks_norm,
        hill_coefs := [none, none],
        param_values := [pv.Vhalf, pv.Kmax, pv.Ku, pv.N, pv.EC50],
        drug_conc_AP := drug_conc_AP,
        APD_trapping := List.replicate APD_points none,
        APD_conductance := List.replicate APD_points none,
        RMSE := none, ME := none }
  | .inr coefs =>
      let r := apdSim coefs drug_conc_AP
      { drug := drug, drug_conc_Hill := drug_conc_Hill,
        peaks_norm := peaks_norm,
        hill_coefs := coefs.map some,
        param_values := [pv.Vhalf, pv.Kmax, pv.Ku, pv.N, pv.EC50],
        drug_conc_AP := r.2.2,
        APD_trapping := r.1,
        APD_conductance := r.2.1,
        RMSE := computeRMSE r.1 r.2.1,
        ME := computeME r.1 r.2.1 }

/-- C1: when the Hill-curve fit fails (the optimizer returned a string
failure marker instead of numeric coefficients), param_evaluation
reports both Hill coefficients, all APD_points = 20 APD90 values of the
detailed (trapping) model and of the simplified (conductance) model, the
RMSE and the ME as the not-a-number sentinel none, whatever the
controller functions do; being a total function of its inputs, it raises
no unhandled exception. -/
theorem param_evaluation_fit_failure
    (apGrid : List ℚ → List ℚ)
    (apdSim : List ℚ → List ℚ → List (Option ℚ) × List (Option ℚ) × List ℚ)
    (computeRMSE computeME : List (Option ℚ) → List (Option ℚ) → Option ℚ)
    (drug : DrugName) (pv : ParamValues)
    (hillFit : Sum String (List ℚ))
    (drug_conc_Hill peaks_norm : List ℚ) (s : String)
    (hfail : hillFit = Sum.inl s) :
    ((param_evaluation apGrid apdSim computeRMSE computeME drug pv hillFit
        drug_conc_Hill peaks_norm).hill_coefs = [none, none]) ∧
    ((param_evaluation apGrid apdSim computeRMSE computeME drug pv hillFit
        drug_conc_Hill peaks_norm).APD_trapping
      = List.replicate APD_points none) ∧
    ((param_evaluation apGrid apdSim computeRMSE computeME drug pv hillFit
        drug_conc_Hill peaks_norm).APD_conductance
      = List.replicate APD_points none) ∧
    ((param_evaluation apGrid apdSim computeRMSE computeME drug pv hillFit
        drug_conc_Hill peaks_norm).RMSE = none) ∧
    ((param_evaluation apGrid apdSim computeRMSE computeME drug pv hillFit
        drug_conc_Hill peaks_norm).ME = none) := by
  subst hfail
  exact ⟨rfl, rfl, rfl, rfl, rfl⟩

/-- C1 witness: a concrete failed fit. -/
theorem param_evaluation_fit_failure_witness :
    ((Sum.inl ("Hill curve did not converge") : Sum String (List ℚ))
      = Sum.inl ("Hill curve did not converge")) ∧
    (((param_evaluation (fun _ => [1]) (fun _ _ => ([], [], []))
        (fun _ _ => some 0) (fun _ _ => some 0) .dofetilide
        { Vhalf := 1, Kmax := 2, Ku := 3, N := 4, EC50 := 5 }
        (Sum.inl ("Hill curve did not converge")) [0, 1] [1, 0]).hill_coefs
      = [none, none]) ∧
    ((param_evaluation (fun _ => [1]) (fun _ _ => ([], [], []))
        (fun _ _ => some 0) (fun _ _ => some 0) .dofetilide
        { Vhalf := 1, Kmax := 2, Ku := 3, N := 4, EC50 := 5 }
        (Sum.inl ("Hill curve did not converge")) [0, 1] [1, 0]).APD_trapping
      = List.replicate APD_points none) ∧
    ((param_evaluation (fun _ => [1]) (fun _ _ => ([], [], []))
        (fun _ _ => some 0) (fun _ _ => some 0) .dofetilide
        { Vhalf := 1, Kmax := 2, Ku := 3, N := 4, EC50 := 5 }
        (Sum.inl ("Hill curve did not converge")) [0, 1] [1, 0]).APD_conductance
      = List.replicate APD_points none) ∧
    ((param_evaluation (fun _ => [1]) (fun _ _ => ([], [], []))
        (fun _ _ => some 0) (fun _ _ => some 0) .dofetilide
        { Vhalf := 1, Kmax := 2, Ku := 3, N := 4, EC50 := 5 }
        (Sum.inl ("Hill curve did not converge")) [0, 1] [1, 0]).RMSE = none) ∧
    ((param_evaluation (fun _ => [1]) (fun _ _ => ([], [], []))
        (fun _ _ => some 0) (fun _ _ => some 0) .dofetilide
        { Vhalf := 1, Kmax := 2, Ku := 3, N := 4, EC50 := 5 }
        (Sum.inl ("Hill curve did not converge")) [0, 1] [1, 0]).ME = none)) :=
  ⟨rfl,
   param_evaluation_fit_failure (fun _ => [1]) (fun _ _ => ([], [], []))
     (fun _ _ => some 0) (fun _ _ => some 0) .dofetilide
     { Vhalf := 1, Kmax := 2, Ku := 3, N := 4, EC50 := 5 }
     (Sum.inl ("Hill curve did not converge")) [0, 1] [1, 0]
     ("Hill curve did not converge") rfl⟩
